import Mathlib

/-!
Verification development for the Bliz client-side analytics collector
(`src/unnamed/part_001`, the v1.3 tracking script).  The script's core --
session-identity resolution from the URL and browser storage, event
normalization, and the transmit pipeline -- is shallowly embedded below.
JavaScript strings are modelled as Lean `String`, the `null`/`undefined`
values as `Option`, JS truthiness of a string as non-emptiness, and
`localStorage` as an explicit `Storage` state (availability flag, an
"every access throws" flag, and the single stored value under the
fixed key `bliz_session_id`).  A `decodeURIComponent` that throws is
modelled with `Except Unit`.
-/

namespace Bliz

/-- JavaScript truthiness of a nullable string: `null`/`undefined` and the
empty string are falsy, every other string is truthy. -/
def jsTruthy : Option String → Bool
  | none => false
  | some s => s ≠ ""

/-- JS `a || b` for plain strings (`a` when non-empty, else `b`). -/
def jsOrS (a b : String) : String := if a = "" then b else a

/-- JS `a || b` where `a` is a nullable string and the result must be a
plain string. -/
def jsOrOptS (a : Option String) (b : String) : String :=
  if jsTruthy a then a.getD "" else b

/-- Hexadecimal value of a character, `none` when not a hex digit. -/
def hexDigit? (c : Char) : Option Nat :=
  if '0' ≤ c ∧ c ≤ '9' then some (c.toNat - '0'.toNat)
  else if 'a' ≤ c ∧ c ≤ 'f' then some (c.toNat - 'a'.toNat + 10)
  else if 'A' ≤ c ∧ c ≤ 'F' then some (c.toNat - 'A'.toNat + 10)
  else none

/-- Read one `%XX` escape body (the two characters after `%`), returning the
byte and the rest of the input. -/
def readEscape : List Char → Option (Nat × List Char)
  | h :: l :: rest =>
    match hexDigit? h, hexDigit? l with
    | some hv, some lv => some (hv * 16 + lv, rest)
    | _, _ => none
  | _ => none

/-- Number of UTF-8 continuation bytes demanded by a leading byte,
`none` when the byte cannot lead a sequence (ECMA-262 Decode). -/
def contCount (b : Nat) : Option Nat :=
  if b < 0x80 then some 0
  else if b < 0xC0 then none
  else if b < 0xE0 then some 1
  else if b < 0xF0 then some 2
  else if b < 0xF8 then some 3
  else none

/-- Read `n` further `%XX` escapes (the continuation bytes of a multi-byte
UTF-8 sequence). -/
def readConts : Nat → List Char → Option (List Nat × List Char)
  | 0, cs => some ([], cs)
  | n + 1, '%' :: cs => do
    let (b, r) ← readEscape cs
    let (bs, r2) ← readConts n r
    pure (b :: bs, r2)
  | _ + 1, _ => none

/-- Combine a leading byte and its continuation bytes into a code point,
validating ranges, overlong encodings and surrogates (strict UTF-8, as
required of `decodeURIComponent`). -/
def utf8CodePoint (b : Nat) (conts : List Nat) : Option Nat :=
  match conts with
  | [] => if b < 0x80 then some b else none
  | [c1] =>
    if 0xC0 ≤ b ∧ b < 0xE0 ∧ (0x80 ≤ c1 ∧ c1 < 0xC0) then
      let cp := (b - 0xC0) * 64 + (c1 - 0x80)
      if 0x80 ≤ cp then some cp else none
    else none
  | [c1, c2] =>
    if 0xE0 ≤ b ∧ b < 0xF0 ∧ (0x80 ≤ c1 ∧ c1 < 0xC0) ∧ (0x80 ≤ c2 ∧ c2 < 0xC0) then
      let cp := (b - 0xE0) * 4096 + (c1 - 0x80) * 64 + (c2 - 0x80)
      if 0x800 ≤ cp ∧ ¬(0xD800 ≤ cp ∧ cp ≤ 0xDFFF) then some cp else none
    else none
  | [c1, c2, c3] =>
    if 0xF0 ≤ b ∧ b < 0xF8 ∧ (0x80 ≤ c1 ∧ c1 < 0xC0) ∧ (0x80 ≤ c2 ∧ c2 < 0xC0)
        ∧ (0x80 ≤ c3 ∧ c3 < 0xC0) then
      let cp := (b - 0xF0) * 262144 + (c1 - 0x80) * 4096 + (c2 - 0x80) * 64 + (c3 - 0x80)
      if 0x10000 ≤ cp ∧ cp ≤ 0x10FFFF then some cp else none
    else none
  | _ => none

/-- Fuel-driven core of `decodeURIComponent` (ECMA-262 `Decode` with an empty
reserved set): plain characters pass through, `%XX` escapes are decoded as
strict UTF-8, and any malformed escape or invalid byte sequence is a
`URIError` (`none`).  The fuel is the input length, which always suffices
since every step consumes at least one character. -/
def decGo : Nat → List Char → Option (List Char)
  | _, [] => some []
  | 0, _ :: _ => none
  | fuel + 1, '%' :: rest => do
    let (b, r1) ← readEscape rest
    let n ← contCount b
    let (cs, r2) ← readConts n r1
    let cp ← utf8CodePoint b cs
    let t ← decGo fuel r2
    pure (Char.ofNat cp :: t)
  | fuel + 1, c :: rest => do
    let t ← decGo fuel rest
    pure (c :: t)

/-- JS `decodeURIComponent`; `.error ()` models a thrown `URIError`. -/
def decodeURIComponentStr (s : String) : Except Unit String :=
  match decGo s.data.length s.data with
  | some l => .ok ⟨l⟩
  | none => .error ()

/-- JS `decodeURIComponent(pair[1])` where `pair[1]` may be `undefined`:
JavaScript coerces `undefined` to the literal string `"undefined"` before
decoding. -/
def decodeURIComponentJsArg : Option String → Except Unit String
  | none => decodeURIComponentStr "undefined"
  | some s => decodeURIComponentStr s

/-- UTF-8 bytes of a single character. -/
def utf8EncodeChar (c : Char) : List Nat :=
  let n := c.toNat
  if n < 0x80 then [n]
  else if n < 0x800 then [0xC0 + n / 0x40, 0x80 + n % 0x40]
  else if n < 0x10000 then
    [0xE0 + n / 0x1000, 0x80 + (n / 0x40) % 0x40, 0x80 + n % 0x40]
  else
    [0xF0 + n / 0x40000, 0x80 + (n / 0x1000) % 0x40, 0x80 + (n / 0x40) % 0x40, 0x80 + n % 0x40]

/-- UTF-8 bytes of a string. -/
def strToBytes (s : String) : List Nat := (s.data.map utf8EncodeChar).flatten

/-- Hexadecimal value of an ASCII byte, `none` when not a hex digit. -/
def hexDigitByte? (b : Nat) : Option Nat :=
  if 0x30 ≤ b ∧ b ≤ 0x39 then some (b - 0x30)
  else if 0x41 ≤ b ∧ b ≤ 0x46 then some (b - 0x41 + 10)
  else if 0x61 ≤ b ∧ b ≤ 0x66 then some (b - 0x61 + 10)
  else none

/-- Percent-decoding of a byte sequence as in the
`application/x-www-form-urlencoded` parser: a `%` followed by two hex
digits becomes that byte, anything else passes through verbatim. -/
def percentDecodeBytes : List Nat → List Nat
  | [] => []
  | 0x25 :: h :: l :: rest =>
    match hexDigitByte? h, hexDigitByte? l with
    | some hv, some lv => (hv * 16 + lv) :: percentDecodeBytes rest
    | _, _ => 0x25 :: percentDecodeBytes (h :: l :: rest)
  | b :: rest => b :: percentDecodeBytes rest

/-- Fuel-driven lenient UTF-8 decoding with U+FFFD replacement (never
fails); on a malformed sequence one byte is consumed per replacement
character.  The fuel is the byte count, which always suffices since every
step consumes at least one byte. -/
def utf8LenientGo : Nat → List Nat → List Char
  | _, [] => []
  | 0, _ :: _ => []
  | fuel + 1, b :: rest =>
    if b < 0x80 then Char.ofNat b :: utf8LenientGo fuel rest
    else if 0xC2 ≤ b ∧ b ≤ 0xDF then
      match rest with
      | c1 :: r1 =>
        if 0x80 ≤ c1 ∧ c1 < 0xC0 then
          Char.ofNat ((b - 0xC0) * 64 + (c1 - 0x80)) :: utf8LenientGo fuel r1
        else Char.ofNat 0xFFFD :: utf8LenientGo fuel rest
      | [] => [Char.ofNat 0xFFFD]
    else if 0xE0 ≤ b ∧ b ≤ 0xEF then
      match rest with
      | c1 :: c2 :: r2 =>
        if (0x80 ≤ c1 ∧ c1 < 0xC0) ∧ (0x80 ≤ c2 ∧ c2 < 0xC0)
            ∧ (0x800 ≤ (b - 0xE0) * 4096 + (c1 - 0x80) * 64 + (c2 - 0x80))
            ∧ ¬(0xD800 ≤ (b - 0xE0) * 4096 + (c1 - 0x80) * 64 + (c2 - 0x80)
                ∧ (b - 0xE0) * 4096 + (c1 - 0x80) * 64 + (c2 - 0x80) ≤ 0xDFFF) then
          Char.ofNat ((b - 0xE0) * 4096 + (c1 - 0x80) * 64 + (c2 - 0x80))
            :: utf8LenientGo fuel r2
        else Char.ofNat 0xFFFD :: utf8LenientGo fuel rest
      | _ => Char.ofNat 0xFFFD :: utf8LenientGo fuel rest
    else if 0xF0 ≤ b ∧ b ≤ 0xF4 then
      match rest with
      | c1 :: c2 :: c3 :: r3 =>
        if (0x80 ≤ c1 ∧ c1 < 0xC0) ∧ (0x80 ≤ c2 ∧ c2 < 0xC0) ∧ (0x80 ≤ c3 ∧ c3 < 0xC0)
            ∧ (0x10000 ≤ (b - 0xF0) * 262144 + (c1 - 0x80) * 4096 + (c2 - 0x80) * 64 + (c3 - 0x80))
            ∧ ((b - 0xF0) * 262144 + (c1 - 0x80) * 4096 + (c2 - 0x80) * 64 + (c3 - 0x80) ≤ 0x10FFFF) then
          Char.ofNat ((b - 0xF0) * 262144 + (c1 - 0x80) * 4096 + (c2 - 0x80) * 64 + (c3 - 0x80))
            :: utf8LenientGo fuel r3
        else Char.ofNat 0xFFFD :: utf8LenientGo fuel rest
      | _ => Char.ofNat 0xFFFD :: utf8LenientGo fuel rest
    else Char.ofNat 0xFFFD :: utf8LenientGo fuel rest

/-- Lenient UTF-8 decoding of a byte sequence. -/
def utf8DecodeLenient (bs : List Nat) : List Char := utf8LenientGo bs.length bs

/-- Decoding applied by `URLSearchParams` to names and values
(`application/x-www-form-urlencoded`): `+` becomes space, then
percent-decoding, then lenient UTF-8 decoding. -/
def decodeForm (s : String) : String :=
  ⟨utf8DecodeLenient (percentDecodeBytes
    ((strToBytes s).map (fun b => if b = 0x2B then 0x20 else b)))⟩

/-- Event type names of the tracker configuration object. -/
structure EventsConfig where
  PAGE_VIEW : String
  LINK_CLICK : String
  BUTTON_CLICK : String
  FORM_SUBMIT : String
deriving DecidableEq

/-- The tracker configuration object. -/
structure Config where
  sessionIdParam : String
  storageKey : String
  events : EventsConfig
deriving DecidableEq

/-- `CONFIG` of the script: the identifier query-parameter name, the storage
key, and the four event type names. -/
def CONFIG : Config :=
  { sessionIdParam := "session_id"
    storageKey := "bliz_session_id"
    events :=
      { PAGE_VIEW := "PAGE_VIEW"
        LINK_CLICK := "LINK_CLICK"
        BUTTON_CLICK := "BUTTON_CLICK"
        FORM_SUBMIT := "FORM_SUBMIT" } }

/-- JS `String.prototype.split` with a single-character separator:
`"" ↦ [""]`, separators at the ends produce empty segments. -/
def splitOnChar (sep : Char) : List Char → List (List Char)
  | [] => [[]]
  | c :: rest =>
    let r := splitOnChar sep rest
    if c = sep then [] :: r
    else (c :: r.headD []) :: r.tail

/-- Join character lists with a separator (inverse of `splitOnChar`). -/
def joinWithChar (sep : Char) : List (List Char) → List Char
  | [] => []
  | [l] => l
  | l :: rest => l ++ sep :: joinWithChar sep rest

/-- Name/value pairs produced by the `URLSearchParams` constructor on a
search string: a single leading `?` is stripped, the rest is split on `&`,
empty segments are skipped, each segment is split at its first `=` (name
gets no `=` at all, value keeps any further ones), and both sides are
form-decoded. -/
def uspPairs (search : String) : List (String × String) :=
  let s := match search.data with
    | '?' :: rest => rest
    | l => l
  (splitOnChar '&' s).filterMap fun seg =>
    if seg = [] then none
    else
      let parts := splitOnChar '=' seg
      some (decodeForm ⟨parts.headD []⟩, decodeForm ⟨joinWithChar '=' parts.tail⟩)

/-- `URLSearchParams.get`: the value of the first pair with the given name,
or `null`. -/
def uspGet (param search : String) : Option String :=
  ((uspPairs search).find? (fun p => p.1 = param)).map (fun p => p.2)

/-- `getQueryParam` of the script: `urlParams.get(param) || null`, so a
present-but-empty value is coerced to `null`. -/
def getQueryParam (param search : String) : Option String :=
  match uspGet param search with
  | some v => if v = "" then none else some v
  | none => none

/-- Loop body of `getQueryParamLegacy`: each `&`-segment is split on `=`;
the first piece is URL-decoded and compared to the parameter name; on a
match the second piece (JS `undefined` when there is no `=`) is URL-decoded
and returned.  A `URIError` from `decodeURIComponent` propagates. -/
def legacyLoop (param : String) : List (List Char) → Except Unit (Option String)
  | [] => .ok none
  | part :: rest =>
    let pair := splitOnChar '=' part
    match decodeURIComponentStr ⟨pair.headD []⟩ with
    | .error e => .error e
    | .ok k =>
      if k = param then
        match decodeURIComponentJsArg ((pair.get? 1).map (⟨·⟩)) with
        | .error e => .error e
        | .ok v => .ok (some v)
      else legacyLoop param rest

/-- `getQueryParamLegacy` of the script: manual fallback parser over
`location.search.substring(1)`. -/
def getQueryParamLegacy (param search : String) : Except Unit (Option String) :=
  legacyLoop param (splitOnChar '&' (search.data.drop 1))

/-- `getSessionIdFromUrl` of the script: try `URLSearchParams` when the
runtime has it; when that yields nothing truthy, fall back to the legacy
parser. -/
def getSessionIdFromUrl (hasUSP : Bool) (search : String) : Except Unit (Option String) :=
  let primary := if hasUSP then getQueryParam CONFIG.sessionIdParam search else none
  if jsTruthy primary then .ok primary
  else getQueryParamLegacy CONFIG.sessionIdParam search

/-- The browser storage facility holding the single `bliz_session_id` key:
`available` models `window.localStorage` being truthy, `failing` models
every access throwing (blocked storage, quota), `value` the stored string. -/
structure Storage where
  available : Bool
  failing : Bool
  value : Option String
deriving DecidableEq

/-- `storeSessionId` of the script: returns whether the write succeeded,
together with the storage afterwards; a throw or an unavailable facility
yields `false` and leaves the storage unchanged, never propagating. -/
def storeSessionId (st : Storage) (sessionId : String) : Bool × Storage :=
  if st.failing then (false, st)
  else if st.available then (true, { st with value := some sessionId })
  else (false, st)

/-- `getStoredSessionId` of the script: the stored value, or `null` when
the facility is unavailable or throws, never propagating. -/
def getStoredSessionId (st : Storage) : Option String :=
  if st.failing then none
  else if st.available then st.value
  else none

/-- The record returned by `init`. -/
structure InitResult where
  initialized : Bool
  sessionId : Option String
  stored : Bool
deriving DecidableEq

/-- `init` of the script (the Session Resolver), run once at load with
`window.blizSessionId` still unset.  Returns the init record, the storage
afterwards, and the resulting `window.blizSessionId`.  An uncaught
`URIError` from the legacy parser propagates as `.error`. -/
def init (hasUSP : Bool) (search : String) (st : Storage) :
    Except Unit (InitResult × Storage × Option String) :=
  match getSessionIdFromUrl hasUSP search with
  | .error e => .error e
  | .ok sid =>
    if jsTruthy sid then
      let res := storeSessionId st (sid.getD "")
      .ok (⟨true, sid, res.1⟩, res.2, sid)
    else
      let stored := getStoredSessionId st
      .ok (⟨true, stored, false⟩, st, if jsTruthy stored then stored else none)

/-- JS whitespace (the ECMAScript WhiteSpace and LineTerminator sets), as
removed by `String.prototype.trim`. -/
def isJsWhitespace (c : Char) : Bool :=
  c ∈ [' ', '\t', '\n', '\r', '\x0b', '\x0c', ' ', ' ',
       ' ', ' ', ' ', ' ', ' ', ' ', ' ',
       ' ', ' ', ' ', ' ', ' ', ' ', ' ',
       ' ', '　', '﻿']

/-- JS `trim`: strip leading and trailing whitespace. -/
def jsTrim (l : List Char) : List Char :=
  ((l.dropWhile isJsWhitespace).reverse.dropWhile isJsWhitespace).reverse

/-- JS `trim` on strings. -/
def jsTrimS (s : String) : String := ⟨jsTrim s.data⟩

/-- JS `substring(0, 100)`. -/
def jsSubstr100 (s : String) : String := ⟨s.data.take 100⟩

/-- JS `replace(/\//g, "")`: the pathname with every slash removed. -/
def stripSlashes (s : String) : String := ⟨s.data.filter (fun c => c ≠ '/')⟩

/-- The normalized event record built by `createEvent` (the timestamp is an
abstract clock value standing for `new Date().toISOString()`). -/
structure Event where
  action : String
  label : String
  pathname : String
  timestamp : Nat
deriving DecidableEq

/-- `createEvent` of the script: `action || "N/A"`, `label || "N/A"`,
`pathname || getPathname()`; `livePath` is the live document path and
`now` the call-time clock. -/
def createEvent (action label : String) (pathname : Option String)
    (livePath : String) (now : Nat) : Event :=
  { action := jsOrS action "N/A"
    label := jsOrS label "N/A"
    pathname := jsOrOptS pathname livePath
    timestamp := now }

/-- The wire record POSTed to the endpoint. -/
structure Payload where
  session_id : String
  action : String
  label : String
  pathname : String
  timestamp : Nat
deriving DecidableEq

/-- `window.blizSessionId || getStoredSessionId()`: the session identity
resolved at transmission time -- the process-wide value when truthy,
otherwise lazily the Identity Store value. -/
def resolveSessionId (bliz : Option String) (st : Storage) : Option String :=
  if jsTruthy bliz then bliz else getStoredSessionId st

/-- `processEvent` of the script: resolve the session identity; when none
resolves, return silently (`none` -- the record is dropped, nothing is
buffered and nothing retried); otherwise build the wire payload
(`some`), which is handed to `sendEventToAPI` exactly once. -/
def processEvent (bliz : Option String) (st : Storage) (e : Event) : Option Payload :=
  let sessionId := resolveSessionId bliz st
  if jsTruthy sessionId then
    some { session_id := sessionId.getD ""
           action := e.action
           label := e.label
           pathname := e.pathname
           timestamp := e.timestamp }
  else none

/-- Label of a clicked `button` element
(`target.innerText ? target.innerText.substring(0, 100).trim() : "button"`). -/
def buttonLabel (innerText : Option String) : String :=
  if jsTruthy innerText then jsTrimS (jsSubstr100 (innerText.getD "")) else "button"

/-- Label of a clicked anchor element (visible text truncated and trimmed,
else `href || "link"`). -/
def anchorLabel (innerText href : Option String) : String :=
  if jsTruthy innerText then jsTrimS (jsSubstr100 (innerText.getD ""))
  else jsOrOptS href "link"

/-- State of the loaded script: the process-wide identity, the storage, the
live pathname, the page-view latch `pageViewTracked`, the event records
handed to `processEvent` (in order), the wire records transmitted (in
order), and the abstract clock. -/
structure TrackerState where
  blizSessionId : Option String
  storage : Storage
  pathname : String
  pageViewTracked : Bool
  produced : List Event
  sent : List Payload
  now : Nat
deriving DecidableEq

/-- Pass one event record through `processEvent`: it is recorded as
produced, and appended to `sent` exactly when an identity resolves. -/
def emitEvent (s : TrackerState) (e : Event) : TrackerState :=
  { s with
    produced := s.produced ++ [e]
    sent := s.sent ++ (processEvent s.blizSessionId s.storage e).toList }

/-- `trackPageView` of the script: an early return when the latch is set;
otherwise build the view record (pathname with slashes stripped, truncated,
`|| "home"`), process it, and set the latch. -/
def trackPageView (s : TrackerState) : TrackerState :=
  if s.pageViewTracked then s
  else
    let label := jsOrS (jsSubstr100 (stripSlashes s.pathname)) "home"
    let s1 := emitEvent s (createEvent CONFIG.events.PAGE_VIEW label none s.pathname s.now)
    { s1 with pageViewTracked := true }

/-- The externally triggered operations of the loaded script: DOM clicks,
form submissions, the five overlapping page-view trigger sources
(DOM-ready, window load, the Shopify section-load signal, the generic
page-loaded signal, the 500 ms timeout fallback), the delayed
`trackPageView` scheduled 100 ms after a popstate, the public
`BlizTracker.trackPageView`, and the popstate (back/forward) signal
itself.  Each runs synchronously on the single main execution context. -/
inductive Op where
  | clickButton (innerText : Option String)
  | clickAnchor (innerText : Option String) (href : Option String)
  | clickOther
  | formSubmit
  | domContentLoaded
  | windowLoad
  | shopifySectionLoad
  | pageLoaded
  | timeoutFallback
  | delayedTrackPageView
  | manualTrackPageView
  | popstate
deriving DecidableEq

/-- One synchronous callback invocation.  The click handler ignores targets
other than `button`/`a`; the submit handler uses the literal label
`form_submit`; the window-load, Shopify, page-loaded and timeout callbacks
guard on `!pageViewTracked` before calling `trackPageView`; the popstate
handler clears the latch (the re-fire it schedules is the separate
`delayedTrackPageView` operation); `BlizTracker.trackPageView` clears the
latch and immediately calls `trackPageView`. -/
def step : Op → TrackerState → TrackerState
  | .clickButton it, s =>
    emitEvent s (createEvent CONFIG.events.BUTTON_CLICK (buttonLabel it) none s.pathname s.now)
  | .clickAnchor it href, s =>
    emitEvent s (createEvent CONFIG.events.LINK_CLICK (anchorLabel it href) none s.pathname s.now)
  | .clickOther, s => s
  | .formSubmit, s =>
    emitEvent s (createEvent CONFIG.events.FORM_SUBMIT "form_submit" none s.pathname s.now)
  | .domContentLoaded, s => trackPageView s
  | .windowLoad, s => if s.pageViewTracked then s else trackPageView s
  | .shopifySectionLoad, s => if s.pageViewTracked then s else trackPageView s
  | .pageLoaded, s => if s.pageViewTracked then s else trackPageView s
  | .timeoutFallback, s => if s.pageViewTracked then s else trackPageView s
  | .delayedTrackPageView, s => trackPageView s
  | .manualTrackPageView, s => trackPageView { s with pageViewTracked := false }
  | .popstate, s => { s with pageViewTracked := false }

/-- Run a sequence of operations. -/
def runOps (s : TrackerState) (ops : List Op) : TrackerState :=
  ops.foldl (fun t op => step op t) s

/-- Number of page-view records produced so far. -/
def viewCount (s : TrackerState) : Nat :=
  (s.produced.filter (fun e => e.action = CONFIG.events.PAGE_VIEW)).length

/-- The trigger sources of the view-tracking latch: the five overlapping
page-load signals plus the delayed re-fire after a popstate -- every call
site of `trackPageView` that is guarded by the latch. -/
def viewTriggerSources : List Op :=
  [.domContentLoaded, .windowLoad, .shopifySectionLoad, .pageLoaded,
   .timeoutFallback, .delayedTrackPageView]

/-- The wire records newly transmitted by one operation. -/
def newSent (op : Op) (s : TrackerState) : List Payload :=
  ((step op s).sent).drop s.sent.length

/-- The action name a given operation stamps on the records it produces
(`none` for operations that produce no record). -/
def actionOf : Op → Option String
  | .clickButton _ => some CONFIG.events.BUTTON_CLICK
  | .clickAnchor _ _ => some CONFIG.events.LINK_CLICK
  | .clickOther => none
  | .formSubmit => some CONFIG.events.FORM_SUBMIT
  | .popstate => none
  | _ => some CONFIG.events.PAGE_VIEW

/-- The fixed collection endpoint. -/
def API_ENDPOINT : String := "https://api.bliz.cc/api/v1/page-events"

/-- One XHR actually issued: method, URL, request headers, the timeout set
on the request, and the serialized body. -/
structure XhrRequest where
  method : String
  url : String
  headers : List (String × String)
  timeoutMs : Nat
  body : Payload
deriving DecidableEq

/-- Observable result of one `sendEventToAPI` call: the requests issued
(zero when the synchronous construction threw, one otherwise) and whether
anything escaped to the caller. -/
structure SendResult where
  requests : List XhrRequest
  raisedToCaller : Bool
deriving DecidableEq

/-- The headers set by `sendEventToAPI`: `accept`, `Content-Type`, and
`Authorization: Bearer <key>` only when a truthy API key was read from the
script element's `data-key` attribute. -/
def requestHeaders (apiKey : Option String) : List (String × String) :=
  [("accept", "*/*"), ("Content-Type", "application/json")]
  ++ (if jsTruthy apiKey then [("Authorization", "Bearer " ++ apiKey.getD "")] else [])

/-- `sendEventToAPI` of the script: the whole construction (open, headers,
timeout, send) sits in a `try`/`catch`, so a synchronous exception issues
no request and nothing ever propagates to the caller; otherwise exactly
one POST with a 5000 ms timeout is issued.  There is no retry path. -/
def sendEventToAPI (apiKey : Option String) (constructionThrows : Bool)
    (p : Payload) : SendResult :=
  if constructionThrows then { requests := [], raisedToCaller := false }
  else
    { requests :=
        [{ method := "POST", url := API_ENDPOINT, headers := requestHeaders apiKey,
           timeoutMs := 5000, body := p }]
      raisedToCaller := false }

/-- The asynchronous outcomes a request can end in. -/
inductive XhrOutcome where
  | completed : Nat → XhrOutcome
  | networkError : XhrOutcome
  | timedOut : XhrOutcome
deriving DecidableEq

/-- Which handler branch an outcome falls into (the branches only log). -/
inductive OutcomeClass where
  | success
  | corsOrNetworkFailure
  | apiError
  | networkErrorLogged
  | timeoutLogged
deriving DecidableEq

/-- What a handler does with an outcome. -/
structure HandlerEffect where
  classified : OutcomeClass
  retried : Bool
  raisedToCaller : Bool
  requeued : Bool
deriving DecidableEq

/-- The `onreadystatechange` (readyState 4), `onerror` and `ontimeout`
handlers of `sendEventToAPI`: a 2xx status is success, status 0 is the
CORS/network-failure branch, anything else the non-2xx branch; every
branch only logs -- no retry, no requeue, nothing raised. -/
def handleOutcome : XhrOutcome → HandlerEffect
  | .completed status =>
    if 200 ≤ status ∧ status < 300 then ⟨.success, false, false, false⟩
    else if status = 0 then ⟨.corsOrNetworkFailure, false, false, false⟩
    else ⟨.apiError, false, false, false⟩
  | .networkError => ⟨.networkErrorLogged, false, false, false⟩
  | .timedOut => ⟨.timeoutLogged, false, false, false⟩

/-- A working, empty storage. -/
def emptyStorage : Storage := ⟨true, false, none⟩

/-- A storage whose every access throws (simulated quota-exceeded). -/
def throwingStorage : Storage := ⟨true, true, none⟩

/-- A sample freshly-loaded tracker state with a resolved identity. -/
def sampleState : TrackerState := ⟨some "abc", emptyStorage, "/", false, [], [], 0⟩

/-- The sample state with the view latch already fired. -/
def sampleFired : TrackerState := { sampleState with pageViewTracked := true }

/-- A sample wire record. -/
def samplePayload : Payload := ⟨"abc", "PAGE_VIEW", "home", "/", 0⟩

/- ------------------------------------------------------------------ -/
/- Theorems.                                                          -/
/- ------------------------------------------------------------------ -/

/-- A nullable string is JS-truthy exactly when it is a present, non-empty
string. -/
theorem jsTruthy_iff (o : Option String) :
    jsTruthy o = true ↔ ∃ s, o = some s ∧ s ≠ "" := by
  cases o <;> simp [jsTruthy]

/-- Claim C1: an event record is transmitted if and only if a non-empty
session identity is resolvable at transmission time (the process-wide
value, or lazily the Identity Store value when the process-wide one is not
truthy); the transmitted payload embeds exactly that identity and the
record's fields; when no identity resolves the record is silently dropped
(`none`), with at most one transmission per record and no buffering or
retry (the result carries no queue). -/
theorem C1_transmission_gating (bliz : Option String) (st : Storage) (e : Event) :
    ((processEvent bliz st e).isSome ↔
      ∃ sid, resolveSessionId bliz st = some sid ∧ sid ≠ "")
    ∧ (∀ p, processEvent bliz st e = some p →
        some p.session_id = resolveSessionId bliz st ∧ p.session_id ≠ ""
        ∧ p.action = e.action ∧ p.label = e.label ∧ p.pathname = e.pathname
        ∧ p.timestamp = e.timestamp)
    ∧ ((¬ jsTruthy (resolveSessionId bliz st) = true) → processEvent bliz st e = none)
    ∧ (processEvent bliz st e).toList.length ≤ 1 := by
  refine ⟨?_, ?_, ?_, ?_⟩
  · rw [← jsTruthy_iff]
    unfold processEvent
    cases h : jsTruthy (resolveSessionId bliz st) <;> simp [h]
  · intro p hp
    unfold processEvent at hp
    cases h : jsTruthy (resolveSessionId bliz st)
    · simp [h] at hp
    · rcases (jsTruthy_iff _).mp h with ⟨s, hs, hne⟩
      simp [h] at hp
      subst hp
      simp [hs, hne]
  · intro h
    unfold processEvent
    simp at h
    simp [h]
  · unfold processEvent
    cases h : jsTruthy (resolveSessionId bliz st) <;> simp [h]

/-- Witness for C1 at a concrete state: with process-wide identity `"abc"`
the payload carries exactly that identity. -/
theorem C1_transmission_gating_witness :
    some "abc" = resolveSessionId (some "abc") emptyStorage ∧ ("abc" : String) ≠ "" := by
  have h := (C1_transmission_gating (some "abc") emptyStorage
      ⟨"PAGE_VIEW", "home", "/", 0⟩).2.1
      ⟨"abc", "PAGE_VIEW", "home", "/", 0⟩ (by decide)
  exact ⟨h.1, h.2.1⟩

/-- One unfolding step of the fallback-parser loop. -/
theorem legacyLoop_cons (param : String) (seg : List Char) (rest : List (List Char)) :
    legacyLoop param (seg :: rest) =
      match decodeURIComponentStr ⟨(splitOnChar '=' seg).headD []⟩ with
      | .error e => .error e
      | .ok k =>
        if k = param then
          match decodeURIComponentJsArg (((splitOnChar '=' seg).get? 1).map (⟨·⟩)) with
          | .error e => .error e
          | .ok v => .ok (some v)
        else legacyLoop param rest := rfl

/-- The fallback-parser loop on a segment whose whole content is the bare
parameter name (no `=`): it URL-decodes JS `undefined` and returns the
literal string `"undefined"`, whatever follows. -/
theorem legacyLoop_bare_head (post : List (List Char)) :
    legacyLoop CONFIG.sessionIdParam (CONFIG.sessionIdParam.data :: post) =
      .ok (some "undefined") := rfl

/-- Segments in which the loop finds no match (and no decode error) can be
dropped from the front of its input. -/
theorem legacyLoop_append_of_none (param : String) (pre rest : List (List Char))
    (h : legacyLoop param pre = .ok none) :
    legacyLoop param (pre ++ rest) = legacyLoop param rest := by
  induction pre with
  | nil => rfl
  | cons seg pre ih =>
    rw [legacyLoop_cons] at h
    rw [List.cons_append, legacyLoop_cons]
    cases hd : decodeURIComponentStr ⟨(splitOnChar '=' seg).headD []⟩ with
    | error e =>
      rw [hd] at h
      simp at h
    | ok k =>
      rw [hd] at h
      dsimp only at h ⊢
      by_cases hk : k = param
      · subst hk
        rw [if_pos rfl] at h
        cases hv : decodeURIComponentJsArg (((splitOnChar '=' seg).get? 1).map (⟨·⟩)) with
        | error e => rw [hv] at h; simp at h
        | ok v => rw [hv] at h; simp at h
      · rw [if_neg hk] at h ⊢
        exact ih h

/-- Counterexample to claim C10 as stated: the query string
`?session_id=v&session_id` contains the identifier parameter name as a
bare token with no `=` (its second `&`-segment), yet the fallback parser
returns `"v"` -- the first match wins -- and `"v"`, not `"undefined"`,
becomes the process-wide session identity (via either parsing path). -/
theorem C10_bare_param_counterexample :
    splitOnChar '&' ("?session_id=v&session_id".data.drop 1)
      = ["session_id=v".data, "session_id".data]
    ∧ getQueryParamLegacy CONFIG.sessionIdParam "?session_id=v&session_id" = .ok (some "v")
    ∧ getSessionIdFromUrl true "?session_id=v&session_id" = .ok (some "v")
    ∧ getSessionIdFromUrl false "?session_id=v&session_id" = .ok (some "v")
    ∧ init true "?session_id=v&session_id" emptyStorage =
        .ok (⟨true, some "v", true⟩, ⟨true, false, some "v"⟩, some "v")
    ∧ ("v" : String) ≠ "undefined" := by
  refine ⟨rfl, rfl, rfl, rfl, rfl, by decide⟩

/-- Claim C10 (amended): for every URL whose query string contains the
identifier parameter name as a bare token with no `=` as its **first**
occurrence of the parameter (no earlier `&`-segment matches the name),
the fallback parser returns the literal string `"undefined"` (the result
of URL-decoding an undefined value) rather than an absence indicator,
and, whenever the primary extractor yields nothing truthy so the fallback
result is used (in particular always when `URLSearchParams` is
unavailable), this string becomes -- and is persisted as -- the
process-wide session identity. -/
theorem C10_bare_param_fallback (hasUSP : Bool) (search : String) (st : Storage)
    (pre post : List (List Char))
    (hsplit : splitOnChar '&' (search.data.drop 1)
      = pre ++ CONFIG.sessionIdParam.data :: post)
    (hpre : legacyLoop CONFIG.sessionIdParam pre = .ok none) :
    getQueryParamLegacy CONFIG.sessionIdParam search = .ok (some "undefined")
    ∧ (jsTruthy (if hasUSP then getQueryParam CONFIG.sessionIdParam search else none)
          = false →
        getSessionIdFromUrl hasUSP search = .ok (some "undefined")
        ∧ init hasUSP search st =
            .ok (⟨true, some "undefined", (storeSessionId st "undefined").1⟩,
              (storeSessionId st "undefined").2, some "undefined")) := by
  have hleg : getQueryParamLegacy CONFIG.sessionIdParam search = .ok (some "undefined") := by
    unfold getQueryParamLegacy
    rw [hsplit, legacyLoop_append_of_none _ _ _ hpre, legacyLoop_bare_head]
  refine ⟨hleg, fun hprim => ?_⟩
  have hurl : getSessionIdFromUrl hasUSP search = .ok (some "undefined") := by
    unfold getSessionIdFromUrl
    dsimp only
    rw [hprim]
    simp only [Bool.false_eq_true, if_false]
    exact hleg
  refine ⟨hurl, ?_⟩
  unfold init
  rw [hurl]
  rfl

/-- Witness for C10 (amended) at `?a=1&session_id` (a non-matching segment
followed by the bare token) with working storage: the fallback yields
`"undefined"`, which becomes and is persisted as the identity. -/
theorem C10_bare_param_fallback_witness :
    getQueryParamLegacy CONFIG.sessionIdParam "?a=1&session_id" = .ok (some "undefined")
    ∧ getSessionIdFromUrl true "?a=1&session_id" = .ok (some "undefined")
    ∧ init true "?a=1&session_id" emptyStorage =
        .ok (⟨true, some "undefined", true⟩, ⟨true, false, some "undefined"⟩,
          some "undefined") := by
  have h := C10_bare_param_fallback true "?a=1&session_id" emptyStorage
    ["a=1".data] [] rfl rfl
  exact ⟨h.1, (h.2 rfl).1, (h.2 rfl).2⟩

/-- Counterexample to claim C2 as stated: the URL `?session_id=` contains
the identifier parameter (with an empty value, as the `URLSearchParams`
pair list shows), yet `resolve()` does not set the process-wide identity
to that URL value (it stays absent), and it reports `persisted = false`
even though a store write would have succeeded. -/
theorem C2_url_identifier_counterexample :
    uspPairs "?session_id=" = [(CONFIG.sessionIdParam, "")]
    ∧ init true "?session_id=" emptyStorage =
        .ok (⟨true, none, false⟩, emptyStorage, none)
    ∧ (storeSessionId emptyStorage "").1 = true := by
  refine ⟨rfl, rfl, rfl⟩

/-- Claim C2 (amended): for every URL from which the session-identifier
extractor yields a non-empty value `v`, `resolve()` sets the process-wide
identity to `v` regardless of storage success, reports `persisted` equal
to the store outcome, and, when the store write succeeds, a subsequent
Identity Store `get()` returns `v`. -/
theorem C2_url_identifier_resolution (hasUSP : Bool) (search : String)
    (st : Storage) (v : String)
    (hget : getSessionIdFromUrl hasUSP search = .ok (some v)) (hv : v ≠ "") :
    init hasUSP search st =
      .ok (⟨true, some v, (storeSessionId st v).1⟩, (storeSessionId st v).2, some v)
    ∧ ((storeSessionId st v).1 = true →
        getStoredSessionId (storeSessionId st v).2 = some v) := by
  constructor
  · unfold init
    rw [hget]
    have ht : jsTruthy (some v) = true := by simp [jsTruthy, hv]
    simp [ht]
  · intro hs
    unfold storeSessionId at hs ⊢
    unfold getStoredSessionId
    by_cases hf : st.failing
    · simp [hf] at hs
    · by_cases ha : st.available
      · simp [hf, ha]
      · simp [hf, ha] at hs

/-- Witness for C2 (amended) at `?session_id=abc123` with working storage. -/
theorem C2_url_identifier_resolution_witness :
    init true "?session_id=abc123" emptyStorage =
      .ok (⟨true, some "abc123", (storeSessionId emptyStorage "abc123").1⟩,
        (storeSessionId emptyStorage "abc123").2, some "abc123")
    ∧ getStoredSessionId (storeSessionId emptyStorage "abc123").2 = some "abc123" := by
  have h := C2_url_identifier_resolution true "?session_id=abc123" emptyStorage
    "abc123" rfl (by decide)
  exact ⟨h.1, h.2 rfl⟩

/-- Claim C3: for every URL lacking the identifier parameter (the
extractor yields nothing), when the Identity Store holds a previously
stored identifier `X` (non-empty, as every identifier this system stores
is), `resolve()` yields `X` as the process-wide identity, reports
`persisted = false`, and returns the storage unchanged -- no write
occurs. -/
theorem C3_stored_identifier_fallback (hasUSP : Bool) (search : String)
    (st : Storage) (x : String)
    (hget : getSessionIdFromUrl hasUSP search = .ok none)
    (hst : getStoredSessionId st = some x) (hx : x ≠ "") :
    init hasUSP search st = .ok (⟨true, some x, false⟩, st, some x) := by
  unfold init
  rw [hget]
  have ht : jsTruthy (some x) = true := by simp [jsTruthy, hx]
  simp [jsTruthy, hst, ht, hx]

/-- Witness for C3 at `?foo=bar` with stored identifier `"s1"`. -/
theorem C3_stored_identifier_fallback_witness :
    init true "?foo=bar" ⟨true, false, some "s1"⟩ =
      .ok (⟨true, some "s1", false⟩, ⟨true, false, some "s1"⟩, some "s1") :=
  C3_stored_identifier_fallback true "?foo=bar" ⟨true, false, some "s1"⟩ "s1"
    rfl rfl (by decide)

/-- Claim C9: when the storage facility throws on every call, Identity
Store `set` returns failure and `get` returns absent without propagating,
and `resolve()` on a URL carrying the identifier still completes without
raising, reports `persisted = false`, and sets the process-wide identity
to the URL-supplied value. -/
theorem C9_storage_throwing_degradation (hasUSP : Bool) (search : String)
    (st : Storage) (v : String)
    (hfail : st.failing = true)
    (hget : getSessionIdFromUrl hasUSP search = .ok (some v)) (hv : v ≠ "") :
    (∀ t, storeSessionId st t = (false, st))
    ∧ getStoredSessionId st = none
    ∧ init hasUSP search st = .ok (⟨true, some v, false⟩, st, some v) := by
  refine ⟨fun t => ?_, ?_, ?_⟩
  · unfold storeSessionId; simp [hfail]
  · unfold getStoredSessionId; simp [hfail]
  · unfold init
    rw [hget]
    have ht : jsTruthy (some v) = true := by simp [jsTruthy, hv]
    simp [ht, storeSessionId, hfail]

/-- Witness for C9 at `?session_id=abc` with a throwing storage. -/
theorem C9_storage_throwing_degradation_witness :
    storeSessionId throwingStorage "abc" = (false, throwingStorage)
    ∧ getStoredSessionId throwingStorage = none
    ∧ init true "?session_id=abc" throwingStorage =
        .ok (⟨true, some "abc", false⟩, throwingStorage, some "abc") := by
  have h := C9_storage_throwing_degradation true "?session_id=abc"
    throwingStorage "abc" rfl rfl (by decide)
  exact ⟨h.1 "abc", h.2.1, h.2.2⟩

/-- `emitEvent` never touches the view latch. -/
theorem tracked_emitEvent (s : TrackerState) (e : Event) :
    (emitEvent s e).pageViewTracked = s.pageViewTracked := rfl

/-- After any `trackPageView` call the latch is set. -/
theorem tracked_trackPageView (s : TrackerState) :
    (trackPageView s).pageViewTracked = true := by
  unfold trackPageView
  by_cases h : s.pageViewTracked
  · simp [h]
  · simp [h]

/-- `trackPageView` on a fired latch is the identity. -/
theorem trackPageView_fired (s : TrackerState) (h : s.pageViewTracked = true) :
    trackPageView s = s := by
  unfold trackPageView
  simp [h]

/-- Processing one event adds one produced view record exactly when its
action is the page-view action. -/
theorem viewCount_emitEvent (s : TrackerState) (e : Event) :
    viewCount (emitEvent s e) =
      viewCount s + (if e.action = CONFIG.events.PAGE_VIEW then 1 else 0) := by
  unfold viewCount emitEvent
  by_cases h : e.action = CONFIG.events.PAGE_VIEW <;> simp [h]

/-- The action field `createEvent` stamps on a record. -/
theorem action_createEvent (a l : String) (pn : Option String) (lp : String) (n : Nat) :
    (createEvent a l pn lp n).action = jsOrS a "N/A" := rfl

/-- `trackPageView` on an unfired latch produces exactly one more view
record. -/
theorem viewCount_trackPageView (s : TrackerState) (h : s.pageViewTracked = false) :
    viewCount (trackPageView s) = viewCount s + 1 := by
  unfold trackPageView
  rw [h]
  simp only [Bool.false_eq_true, if_false]
  have hv : viewCount { emitEvent s (createEvent CONFIG.events.PAGE_VIEW
      (jsOrS (jsSubstr100 (stripSlashes s.pathname)) "home") none s.pathname s.now)
      with pageViewTracked := true }
      = viewCount (emitEvent s (createEvent CONFIG.events.PAGE_VIEW
        (jsOrS (jsSubstr100 (stripSlashes s.pathname)) "home") none s.pathname s.now)) := rfl
  rw [hv, viewCount_emitEvent]
  have hact : (createEvent CONFIG.events.PAGE_VIEW
      (jsOrS (jsSubstr100 (stripSlashes s.pathname)) "home") none s.pathname s.now).action
      = CONFIG.events.PAGE_VIEW := by
    rw [action_createEvent]; decide
  rw [hact]
  simp

/-- A latch-guarded trigger source on an unfired latch is exactly
`trackPageView`. -/
theorem step_trigger_unfired (o : Op) (s : TrackerState)
    (ho : o ∈ viewTriggerSources) (hs : s.pageViewTracked = false) :
    step o s = trackPageView s := by
  cases o <;> simp_all [viewTriggerSources, step]

/-- A latch-guarded trigger source on a fired latch is a no-op. -/
theorem step_trigger_fired (o : Op) (s : TrackerState)
    (ho : o ∈ viewTriggerSources) (hs : s.pageViewTracked = true) :
    step o s = s := by
  cases o <;> simp_all [viewTriggerSources, step, trackPageView_fired]

/-- Running any sequence of latch-guarded trigger sources from a fired
latch changes nothing. -/
theorem runOps_trigger_fired (ops : List Op) (s : TrackerState)
    (hops : ∀ x ∈ ops, x ∈ viewTriggerSources) (hs : s.pageViewTracked = true) :
    runOps s ops = s := by
  induction ops with
  | nil => rfl
  | cons o rest ih =>
    have h1 : step o s = s := step_trigger_fired o s (hops o (by simp)) hs
    show runOps (step o s) rest = s
    rw [h1]
    exact ih (fun x hx => hops x (by simp [hx]))

/-- Claim C4: the view-tracking latch has exactly the two boolean states;
whenever an operation emits a view record the latch ends fired, every
trigger source fires it from unfired, and the only operation of the whole
system that ever moves it from fired back to unfired is the back/forward
(`popstate`) navigation signal. -/
theorem C4_latch_transitions (op : Op) (s : TrackerState) :
    ((step op s).pageViewTracked = false → s.pageViewTracked = true → op = .popstate)
    ∧ (viewCount (step op s) ≠ viewCount s → (step op s).pageViewTracked = true)
    ∧ (op ∈ viewTriggerSources → s.pageViewTracked = false →
        (step op s).pageViewTracked = true) := by
  refine ⟨?_, ?_, ?_⟩
  · intro h1 h2
    cases op <;>
      simp_all [step, tracked_emitEvent, tracked_trackPageView, trackPageView_fired]
  · intro hchange
    have hemit : ∀ (t : TrackerState) (e : Event), e.action ≠ CONFIG.events.PAGE_VIEW →
        viewCount (emitEvent t e) = viewCount t := by
      intro t e he
      rw [viewCount_emitEvent]
      simp [he]
    cases op with
    | clickButton it =>
      exact absurd (hemit s _ (by rw [action_createEvent]; decide)) hchange
    | clickAnchor it href =>
      exact absurd (hemit s _ (by rw [action_createEvent]; decide)) hchange
    | clickOther => exact absurd rfl hchange
    | formSubmit =>
      exact absurd (hemit s _ (by rw [action_createEvent]; decide)) hchange
    | domContentLoaded => exact tracked_trackPageView s
    | windowLoad =>
      show (if s.pageViewTracked = true then s else trackPageView s).pageViewTracked = true
      by_cases h : s.pageViewTracked = true
      · simp [h]
      · simp [h, tracked_trackPageView]
    | shopifySectionLoad =>
      show (if s.pageViewTracked = true then s else trackPageView s).pageViewTracked = true
      by_cases h : s.pageViewTracked = true
      · simp [h]
      · simp [h, tracked_trackPageView]
    | pageLoaded =>
      show (if s.pageViewTracked = true then s else trackPageView s).pageViewTracked = true
      by_cases h : s.pageViewTracked = true
      · simp [h]
      · simp [h, tracked_trackPageView]
    | timeoutFallback =>
      show (if s.pageViewTracked = true then s else trackPageView s).pageViewTracked = true
      by_cases h : s.pageViewTracked = true
      · simp [h]
      · simp [h, tracked_trackPageView]
    | delayedTrackPageView => exact tracked_trackPageView s
    | manualTrackPageView => exact tracked_trackPageView _
    | popstate => exact absurd rfl hchange
  · intro ho hs
    rw [step_trigger_unfired op s ho hs]
    exact tracked_trackPageView s

/-- Witness for C4: from the fired sample state, `popstate` is the
operation that unfires the latch, and from the unfired sample state the
DOM-ready trigger fires it. -/
theorem C4_latch_transitions_witness :
    Op.popstate = Op.popstate
    ∧ (step .domContentLoaded sampleState).pageViewTracked = true := by
  refine ⟨(C4_latch_transitions .popstate sampleFired).1 (by decide) (by decide), ?_⟩
  exact (C4_latch_transitions .domContentLoaded sampleState).2.2 (by decide) (by decide)

/-- Claim C5: invoking the view-tracking trigger two or more times within
one page load (latch initially unfired, no back/forward signal in
between) produces exactly one page-view record, and every invocation
after the first is a no-op -- the state after the whole sequence is the
state after the first trigger. -/
theorem C5_view_trigger_idempotence (s : TrackerState) (o : Op) (rest : List Op)
    (hs : s.pageViewTracked = false)
    (ho : o ∈ viewTriggerSources)
    (hrest : ∀ x ∈ rest, x ∈ viewTriggerSources)
    (hne : rest ≠ []) :
    runOps s (o :: rest) = step o s
    ∧ viewCount (runOps s (o :: rest)) = viewCount s + 1 := by
  have h1 : step o s = trackPageView s := step_trigger_unfired o s ho hs
  have h2 : (step o s).pageViewTracked = true := by
    rw [h1]; exact tracked_trackPageView s
  have h3 : runOps s (o :: rest) = step o s := by
    show runOps (step o s) rest = step o s
    exact runOps_trigger_fired rest (step o s) hrest h2
  refine ⟨h3, ?_⟩
  rw [h3, h1]
  exact viewCount_trackPageView s hs

/-- Witness for C5: two overlapping triggers (DOM-ready then window-load)
on the fresh sample state produce exactly one view record. -/
theorem C5_view_trigger_idempotence_witness :
    runOps sampleState [Op.domContentLoaded, Op.windowLoad]
      = step .domContentLoaded sampleState
    ∧ viewCount (runOps sampleState [Op.domContentLoaded, Op.windowLoad])
      = viewCount sampleState + 1 :=
  C5_view_trigger_idempotence sampleState .domContentLoaded [.windowLoad]
    rfl (by decide) (by decide) (by decide)

/-- A payload produced by `processEvent` carries the record's action. -/
theorem processEvent_action (b : Option String) (st : Storage) (e : Event)
    (p : Payload) (hp : p ∈ (processEvent b st e).toList) : p.action = e.action := by
  unfold processEvent at hp
  cases h : jsTruthy (resolveSessionId b st) <;> simp [h] at hp
  rw [hp]

/-- The wire records appended by `trackPageView`. -/
theorem sent_trackPageView (s : TrackerState) :
    (trackPageView s).sent = s.sent ++
      (if s.pageViewTracked then [] else
        (processEvent s.blizSessionId s.storage
          (createEvent CONFIG.events.PAGE_VIEW
            (jsOrS (jsSubstr100 (stripSlashes s.pathname)) "home")
            none s.pathname s.now)).toList) := by
  unfold trackPageView
  by_cases h : s.pageViewTracked <;> simp [h, emitEvent]

/-- Counterexample to claim C7 as stated: a concrete transmitted page-view
record carries the action string `"PAGE_VIEW"`, which is none of the four
lowercase values the claim names. -/
theorem C7_action_counterexample :
    (step .domContentLoaded sampleState).sent = [⟨"abc", "PAGE_VIEW", "home", "/", 0⟩]
    ∧ ("PAGE_VIEW" ∉ (["page_view", "link_click", "button_click", "form_submit"] :
        List String)) := by
  refine ⟨rfl, by decide⟩

/-- Claim C7 (amended): every transmitted wire record's action field is one
of the four categorical values `PAGE_VIEW`, `LINK_CLICK`, `BUTTON_CLICK`,
`FORM_SUBMIT` (the uppercase names of `CONFIG.events`), chosen according
to the triggering occurrence kind. -/
theorem C7_action_values (op : Op) (s : TrackerState) (p : Payload)
    (hp : p ∈ newSent op s) :
    (p.action = "PAGE_VIEW" ∨ p.action = "LINK_CLICK" ∨ p.action = "BUTTON_CLICK"
      ∨ p.action = "FORM_SUBMIT")
    ∧ actionOf op = some p.action := by
  have hview : ∀ (t : TrackerState), p ∈ ((trackPageView t).sent).drop t.sent.length →
      p.action = "PAGE_VIEW" := by
    intro t hmem
    rw [sent_trackPageView, List.drop_left] at hmem
    by_cases h : t.pageViewTracked
    · simp [h] at hmem
    · simp only [h, if_false] at hmem
      have := processEvent_action _ _ _ _ hmem
      rw [this, action_createEvent]
      decide
  have hguard : ∀ (t : TrackerState),
      p ∈ ((if t.pageViewTracked = true then t else trackPageView t).sent).drop t.sent.length →
      p.action = "PAGE_VIEW" := by
    intro t hmem
    by_cases h : t.pageViewTracked = true
    · rw [if_pos h, List.drop_length] at hmem
      simp at hmem
    · rw [if_neg h] at hmem
      exact hview t hmem
  cases op with
  | clickButton it =>
    have hmem : p ∈ (processEvent s.blizSessionId s.storage
        (createEvent CONFIG.events.BUTTON_CLICK (buttonLabel it) none
          s.pathname s.now)).toList := by
      simpa [newSent, step, emitEvent, List.drop_left] using hp
    have ha := processEvent_action _ _ _ _ hmem
    rw [action_createEvent] at ha
    have haction : p.action = "BUTTON_CLICK" := by rw [ha]; decide
    exact ⟨by simp [haction], by simp [actionOf, haction, CONFIG]⟩
  | clickAnchor it href =>
    have hmem : p ∈ (processEvent s.blizSessionId s.storage
        (createEvent CONFIG.events.LINK_CLICK (anchorLabel it href) none
          s.pathname s.now)).toList := by
      simpa [newSent, step, emitEvent, List.drop_left] using hp
    have ha := processEvent_action _ _ _ _ hmem
    rw [action_createEvent] at ha
    have haction : p.action = "LINK_CLICK" := by rw [ha]; decide
    exact ⟨by simp [haction], by simp [actionOf, haction, CONFIG]⟩
  | clickOther =>
    exfalso
    simp [newSent, step, List.drop_length] at hp
  | formSubmit =>
    have hmem : p ∈ (processEvent s.blizSessionId s.storage
        (createEvent CONFIG.events.FORM_SUBMIT "form_submit" none
          s.pathname s.now)).toList := by
      simpa [newSent, step, emitEvent, List.drop_left] using hp
    have ha := processEvent_action _ _ _ _ hmem
    rw [action_createEvent] at ha
    have haction : p.action = "FORM_SUBMIT" := by rw [ha]; decide
    exact ⟨by simp [haction], by simp [actionOf, haction, CONFIG]⟩
  | domContentLoaded =>
    have := hview s hp
    exact ⟨by simp [this], by simp [actionOf, this, CONFIG]⟩
  | windowLoad =>
    have := hguard s hp
    exact ⟨by simp [this], by simp [actionOf, this, CONFIG]⟩
  | shopifySectionLoad =>
    have := hguard s hp
    exact ⟨by simp [this], by simp [actionOf, this, CONFIG]⟩
  | pageLoaded =>
    have := hguard s hp
    exact ⟨by simp [this], by simp [actionOf, this, CONFIG]⟩
  | timeoutFallback =>
    have := hguard s hp
    exact ⟨by simp [this], by simp [actionOf, this, CONFIG]⟩
  | delayedTrackPageView =>
    have := hview s hp
    exact ⟨by simp [this], by simp [actionOf, this, CONFIG]⟩
  | manualTrackPageView =>
    have := hview { s with pageViewTracked := false } hp
    exact ⟨by simp [this], by simp [actionOf, this, CONFIG]⟩
  | popstate =>
    exfalso
    simp [newSent, step, List.drop_length] at hp

/-- Witness for C7 (amended): a concrete form submission produces a record
whose action is `FORM_SUBMIT`, matching its occurrence kind. -/
theorem C7_action_values_witness :
    actionOf Op.formSubmit =
      some (⟨"abc", "FORM_SUBMIT", "form_submit", "/", 0⟩ : Payload).action :=
  (C7_action_values .formSubmit sampleState
    ⟨"abc", "FORM_SUBMIT", "form_submit", "/", 0⟩ (by decide)).2

/-- `dropWhile` is the identity when the first element (if any) is not
whitespace. -/
theorem dropWhile_headD (m : List Char) (h : isJsWhitespace (m.headD 'x') = false) :
    m.dropWhile isJsWhitespace = m := by
  cases m with
  | nil => rfl
  | cons c cs =>
    simp only [List.headD_cons] at h
    simp [List.dropWhile_cons, h]

/-- JS `trim` is the identity on a string whose first and last characters
are not whitespace. -/
theorem jsTrim_eq_self (m : List Char)
    (h1 : isJsWhitespace (m.headD 'x') = false)
    (h2 : isJsWhitespace (m.getLastD 'x') = false) :
    jsTrim m = m := by
  unfold jsTrim
  rw [dropWhile_headD m h1]
  have hrev : isJsWhitespace (m.reverse.headD 'x') = false := by
    rw [List.headD_eq_head?_getD, List.head?_reverse, ← List.getLastD_eq_getLast?]
    exact h2
  rw [dropWhile_headD m.reverse hrev, List.reverse_reverse]

set_option maxRecDepth 10000 in
/-- Counterexample to claim C6 as stated: a button whose visible text is
250 characters long (all spaces) yields the normalized label `"N/A"`
(3 characters), not a label of exactly 100 characters -- the code
truncates first and trims afterwards, and `label || "N/A"` turns the
trimmed-to-empty label into the sentinel. -/
theorem C6_label_counterexample :
    (String.mk (List.replicate 250 ' ')).length = 250
    ∧ jsTruthy (some (String.mk (List.replicate 250 ' '))) = true
    ∧ (createEvent CONFIG.events.BUTTON_CLICK
        (buttonLabel (some (String.mk (List.replicate 250 ' ')))) none "/" 0).label = "N/A"
    ∧ ¬ ("N/A" : String).length = 100 := by
  refine ⟨rfl, rfl, rfl, by decide⟩

/-- Claim C6 (amended): the normalizer defaults the label to `"N/A"` when
the raw label is empty or absent; a button's raw label is its visible
text truncated to 100 characters and then trimmed; and a 250-character
button text whose truncation boundary characters (the first and the
hundredth) are not whitespace yields a normalized label of exactly 100
characters (texts whose prefix trims further, e.g. all-whitespace ones,
yield shorter labels or the `"N/A"` sentinel). -/
theorem C6_label_normalization :
    (∀ (a : String) (pn : Option String) (lp : String) (n : Nat),
        (createEvent a "" pn lp n).label = "N/A")
    ∧ (∀ t : String, t ≠ "" → buttonLabel (some t) = jsTrimS (jsSubstr100 t))
    ∧ (∀ (l : List Char) (lp : String) (n : Nat), l.length = 250 →
        isJsWhitespace ((l.take 100).headD 'x') = false →
        isJsWhitespace ((l.take 100).getLastD 'x') = false →
        buttonLabel (some ⟨l⟩) = ⟨l.take 100⟩
        ∧ (buttonLabel (some ⟨l⟩)).length = 100
        ∧ (createEvent CONFIG.events.BUTTON_CLICK (buttonLabel (some ⟨l⟩)) none lp n).label
            = ⟨l.take 100⟩) := by
  have hbutton : ∀ t : String, t ≠ "" → buttonLabel (some t) = jsTrimS (jsSubstr100 t) := by
    intro t ht
    unfold buttonLabel
    have hj : jsTruthy (some t) = true := by simp [jsTruthy, ht]
    simp [hj]
  refine ⟨?_, hbutton, ?_⟩
  · intro a pn lp n
    simp [createEvent, jsOrS]
  · intro l lp n h250 hh hl
    have hne : l ≠ [] := by
      intro h
      rw [h] at h250
      simp at h250
    have hts : (⟨l⟩ : String) ≠ "" := by
      intro h
      exact hne (congrArg String.data h)
    have hbl : buttonLabel (some ⟨l⟩) = ⟨l.take 100⟩ := by
      rw [hbutton ⟨l⟩ hts]
      show (⟨jsTrim ((⟨l⟩ : String).data.take 100)⟩ : String) = ⟨l.take 100⟩
      rw [show (⟨l⟩ : String).data = l from rfl, jsTrim_eq_self (l.take 100) hh hl]
    have hlen : (buttonLabel (some ⟨l⟩)).length = 100 := by
      rw [hbl]
      show (l.take 100).length = 100
      rw [List.length_take, h250]
      decide
    have hne100 : buttonLabel (some ⟨l⟩) ≠ "" := by
      intro h
      rw [h] at hlen
      simp at hlen
    refine ⟨hbl, hlen, ?_⟩
    show jsOrS (buttonLabel (some ⟨l⟩)) "N/A" = ⟨l.take 100⟩
    rw [jsOrS, if_neg hne100, hbl]

set_option maxRecDepth 10000 in
/-- Witness for C6 (amended) at concrete inputs: an empty raw label yields
`"N/A"`, a short text is truncated-and-trimmed, and a 250-character
all-`a` button text yields exactly its 100-character prefix. -/
theorem C6_label_normalization_witness :
    (createEvent "X" "" none "/" 0).label = "N/A"
    ∧ buttonLabel (some "ab") = jsTrimS (jsSubstr100 "ab")
    ∧ buttonLabel (some ⟨List.replicate 250 'a'⟩) = ⟨(List.replicate 250 'a').take 100⟩
    ∧ (buttonLabel (some ⟨List.replicate 250 'a'⟩)).length = 100 := by
  have h3 := C6_label_normalization.2.2 (List.replicate 250 'a') "/" 0
    (by decide) (by decide) (by decide)
  exact ⟨C6_label_normalization.1 "X" none "/" 0,
    C6_label_normalization.2.1 "ab" (by decide), h3.1, h3.2.1⟩

/-- Claim C8: each record is attempted exactly once -- `sendEventToAPI`
issues a single POST to the configured endpoint with `accept: */*` and
`Content-Type: application/json`, attaches `Authorization: Bearer <key>`
exactly when a (truthy) API key is configured, sets a 5000 ms timeout,
and every outcome class (2xx, non-2xx, status-0/network/CORS failure,
timeout, and a synchronous construction exception, which is caught and
issues no request) is handled without raising to the caller and without
any retry or requeue. -/
theorem C8_transport_behavior (apiKey : Option String) (ct : Bool) (p : Payload) :
    (sendEventToAPI apiKey ct p).raisedToCaller = false
    ∧ (sendEventToAPI apiKey ct p).requests.length = (if ct then 0 else 1)
    ∧ (∀ r ∈ (sendEventToAPI apiKey ct p).requests,
        r.method = "POST" ∧ r.url = API_ENDPOINT
        ∧ ("accept", "*/*") ∈ r.headers
        ∧ ("Content-Type", "application/json") ∈ r.headers
        ∧ (∀ k, apiKey = some k → k ≠ "" → ("Authorization", "Bearer " ++ k) ∈ r.headers)
        ∧ (jsTruthy apiKey = false → ∀ v, ("Authorization", v) ∉ r.headers)
        ∧ r.timeoutMs = 5000 ∧ r.body = p)
    ∧ (∀ o, (handleOutcome o).retried = false ∧ (handleOutcome o).raisedToCaller = false
        ∧ (handleOutcome o).requeued = false) := by
  refine ⟨?_, ?_, ?_, ?_⟩
  · cases ct <;> simp [sendEventToAPI]
  · cases ct <;> simp [sendEventToAPI]
  · intro r hr
    cases ct with
    | true => simp [sendEventToAPI] at hr
    | false =>
      simp only [sendEventToAPI, Bool.false_eq_true, if_false, List.mem_singleton] at hr
      subst hr
      refine ⟨rfl, rfl, ?_, ?_, ?_, ?_, rfl, rfl⟩
      · simp [requestHeaders]
      · simp [requestHeaders]
      · intro k hk hkne
        subst hk
        have hj : jsTruthy (some k) = true := by simp [jsTruthy, hkne]
        simp [requestHeaders, hj]
      · intro hfalse v
        simp [requestHeaders, hfalse]
  · intro o
    cases o with
    | completed status =>
      simp only [handleOutcome]
      by_cases h1 : 200 ≤ status ∧ status < 300
      · simp [h1]
      · by_cases h2 : status = 0
        · simp [h1, h2]
        · simp [h1, h2]
    | networkError => exact ⟨rfl, rfl, rfl⟩
    | timedOut => exact ⟨rfl, rfl, rfl⟩

/-- Witness for C8 at a concrete configured key: the single issued request
carries the bearer header. -/
theorem C8_transport_behavior_witness :
    ("Authorization", "Bearer " ++ "k1") ∈
      (⟨"POST", API_ENDPOINT, requestHeaders (some "k1"), 5000, samplePayload⟩ :
        XhrRequest).headers :=
  ((C8_transport_behavior (some "k1") false samplePayload).2.2.1
    ⟨"POST", API_ENDPOINT, requestHeaders (some "k1"), 5000, samplePayload⟩
    (by simp [sendEventToAPI])).2.2.2.2.1 "k1" rfl (by decide)

end Bliz
